import Mathlib

/-!
Verification of the OpenWAM controller subsystem (Table controller variant and
the host simulation-loop wrapper) against its natural-language specification.

The embedding is shallow: each C++ member function of `TTable`
(Source/Control/TTable.cpp) becomes a Lean function on an explicit state
record, with `double` rendered as `ℚ` and the C file-position cursor as `Nat`.
The class declaration `TTable.h` is not part of the visible sources, so the
fields beyond those assigned in `TTable.cpp` (the breakpoint table and the
sensor/controller references described by the specification's data model) are
modelled from the spec and marked as such.  The host wrapper
(Source/wasm_wrapper.cpp) is embedded with its external collaborators
(`json::parse`, the `TOpenWAM` solver) abstracted into an outcome type, since
those collaborators are outside the visible sources.
-/

namespace OpenWAM

/-- A sensor, as seen by the controller subsystem: a read-only scalar source.
Modelled from the spec: `TSensor` is not among the visible sources; the spec
describes it as an external read-only source of a scalar reading. -/
structure TSensor where
  value : ℚ
deriving DecidableEq, Repr

/-- State of a `TTable` controller.  `fID` and `fOutput` are the fields
assigned by `TTable.cpp` (constructor, `Output`).  The remaining fields are
modelled from the spec: `TTable.h` is not among the visible sources, and the
spec's data model gives the Table variant an ordered breakpoint table and
lists of sensor/controller references captured during parsing plus the live
bindings resolved by `AsignaObjetos`. -/
structure TTable where
  fID : Int
  fOutput : ℚ
  table : List (ℚ × ℚ)
  refSensorIds : List Nat
  refControllerIds : List Nat
  boundSensorIds : List Nat
  boundControllerIds : List Nat
deriving DecidableEq, Repr

/-- `TTable::TTable(int i)`: sets `fID = i + 1` and `fOutput = 0.`.  The
fields not assigned in the visible constructor start empty (the spec says
references are captured only later, during parsing). -/
def TTable.construct (i : Int) : TTable :=
  { fID := i + 1
    fOutput := 0
    table := []
    refSensorIds := []
    refControllerIds := []
    boundSensorIds := []
    boundControllerIds := [] }

/-- `TTable::Output(double Time)`: the body ignores its argument and the
table entirely and returns the cached `fOutput`, mutating nothing.  The
returned pair makes the (absent) state change explicit. -/
def TTable.Output (st : TTable) (_Time : ℚ) : ℚ × TTable :=
  (st.fOutput, st)

/-- `TTable::LeeController(const char*, fpos_t&)`: opens the file, performs
`fsetpos` to the given cursor, reads no fields at all, then `fgetpos` back
into the cursor and closes the file.  Since nothing is read between the two
position calls, the cursor comes back unchanged and no state is populated. -/
def TTable.LeeController (st : TTable) (_FileWAM : String) (filepos : Nat) :
    TTable × Nat :=
  (st, filepos)

/-- Error type of the binding phase described by the spec. -/
inductive BindError where
  | UnresolvedReferenceError (id : Nat)
deriving DecidableEq, Repr

/-- `TTable::AsignaObjetos(TSensor**, TController**)`: the body is empty, so
it can neither throw nor modify the controller; embedded as always returning
`Except.ok` with the state unchanged. -/
def TTable.AsignaObjetos (st : TTable) (_Sensor : List TSensor)
    (_Controller : List TTable) : Except BindError TTable :=
  Except.ok st

/-- `TTable::LeeResultadosMedControlador`: empty body, cursor and state
untouched. -/
def TTable.LeeResultadosMedControlador (st : TTable) (_FileWAM : String)
    (filepos : Nat) : TTable × Nat :=
  (st, filepos)

/-- `TTable::LeeResultadosInsControlador`: empty body, cursor and state
untouched. -/
def TTable.LeeResultadosInsControlador (st : TTable) (_FileWAM : String)
    (filepos : Nat) : TTable × Nat :=
  (st, filepos)

/-- `TTable::CabeceraResultadosMedControlador(stringstream*)`: empty body;
the stream contents are threaded through to show nothing is written. -/
def TTable.CabeceraResultadosMedControlador (st : TTable)
    (medoutput : String) : TTable × String :=
  (st, medoutput)

/-- `TTable::CabeceraResultadosInsControlador(stringstream*)`: empty body. -/
def TTable.CabeceraResultadosInsControlador (st : TTable)
    (insoutput : String) : TTable × String :=
  (st, insoutput)

/-- `TTable::ImprimeResultadosMedControlador(stringstream*)`: empty body. -/
def TTable.ImprimeResultadosMedControlador (st : TTable)
    (medoutput : String) : TTable × String :=
  (st, medoutput)

/-- `TTable::ImprimeResultadosInsControlador(stringstream*)`: empty body. -/
def TTable.ImprimeResultadosInsControlador (st : TTable)
    (insoutput : String) : TTable × String :=
  (st, insoutput)

/-- `TTable::IniciaMedias()`: empty body. -/
def TTable.IniciaMedias (st : TTable) : TTable :=
  st

/-- `TTable::ResultadosMediosController()`: empty body. -/
def TTable.ResultadosMediosController (st : TTable) : TTable :=
  st

/-- `TTable::AcumulaResultadosMediosController(double Actual)`: empty body
(the comments in the source state it is deliberately empty for this class). -/
def TTable.AcumulaResultadosMediosController (st : TTable) (_Actual : ℚ) :
    TTable :=
  st

/-- `TTable::ResultadosInstantController()`: deliberately empty body. -/
def TTable.ResultadosInstantController (st : TTable) : TTable :=
  st

/-- Repeated `Output` calls at a list of times, threading the state returned
by each call into the next. -/
def runOutputs (st : TTable) : List ℚ → List ℚ × TTable
  | [] => ([], st)
  | t :: ts =>
    let (v, st1) := TTable.Output st t
    let (vs, st2) := runOutputs st1 ts
    (v :: vs, st2)

/-- Modelled from the spec: the piecewise-linear table lookup with edge
clamping that §4.2 states `Output` must implement once completed (this logic
is missing from the source, which returns the cached value instead).  For a
strictly-increasing breakpoint list, a reading left of the first breakpoint
clamps to the first value, a reading right of the last clamps to the last
value, and in between it interpolates linearly over the bracketing pair. -/
def specTableLookup : List (ℚ × ℚ) → ℚ → ℚ
  | [], _ => 0
  | [(_, y)], _ => y
  | (x1, y1) :: (x2, y2) :: rest, x =>
    if x ≤ x1 then y1
    else if x ≤ x2 then y1 + (y2 - y1) * (x - x1) / (x2 - x1)
    else specTableLookup ((x2, y2) :: rest) x

/-- Result object of a completed simulation run, as read off by
`run_simulation_wrapper` from `TOutputResults` and the engine block.
Modelled from the spec where the collaborator is outside the visible
sources: `crank_angle`, `pressure` and `temperature` mirror the fields the
wrapper reads; `engine` is `some (torque, power, imep)` exactly when the
engine-block pointer is non-null. -/
structure SimResults where
  crank_angle : List ℚ
  pressure : List (List ℚ)
  temperature : List (List ℚ)
  engine : Option (ℚ × ℚ × ℚ)
deriving DecidableEq, Repr

/-- Abstract outcome of the `try` block of `run_simulation_wrapper` up to the
point where the response is assembled.  Modelled from the spec:
`json::parse` and the `TOpenWAM` solver are outside the visible sources, so
their behaviour is abstracted into which exception (if any) escapes.  A JSON
parse failure throws a `std::exception` subclass, so it is a `throwsStd`
case.  `completes r` carries `some results` when `getOutputResults()` is
non-null and `none` otherwise. -/
inductive HostOutcome where
  | throwsStd (what : String)
  | throwsUnknown
  | completes (results : Option SimResults)
deriving DecidableEq, Repr

/-- The `output` object of a success response: `crank_angle` always, and the
first pressure/temperature series when present. -/
structure OutputPayload where
  crank_angle : List ℚ
  pressure : Option (List ℚ)
  temperature : Option (List ℚ)
deriving DecidableEq, Repr

/-- The `performance` object of a success response. -/
structure PerfPayload where
  torque : ℚ
  power_hp : ℚ
  imep : ℚ
deriving DecidableEq, Repr

/-- The JSON response of `run_simulation_wrapper`: always a `status` and a
`message`; `output` and `performance` objects only on the success path. -/
structure Response where
  status : String
  message : String
  output : Option OutputPayload
  performance : Option PerfPayload
deriving DecidableEq, Repr

/-- `run_simulation_wrapper` (Source/wasm_wrapper.cpp): the response
assembly.  On completion with results it reports success, copies
`crank_angle` and the head series of `pressure`/`temperature` into `output`,
and fills `performance` from the engine block when present and with zeros
otherwise (`power_hp` is power divided by 745.7).  On completion without
results, and on any caught exception, it reports an error with a message.
The surrounding `catch` blocks make these the only possible responses. -/
def run_simulation_wrapper (ev : HostOutcome) : Response :=
  match ev with
  | HostOutcome.throwsStd w =>
    { status := "error"
      message := "C++ exception: " ++ w
      output := none
      performance := none }
  | HostOutcome.throwsUnknown =>
    { status := "error"
      message := "An unknown C++ exception occurred during simulation."
      output := none
      performance := none }
  | HostOutcome.completes none =>
    { status := "error"
      message := "Simulation ran but produced no output."
      output := none
      performance := none }
  | HostOutcome.completes (some r) =>
    { status := "success"
      message := "Simulation completed."
      output := some
        { crank_angle := r.crank_angle
          pressure := r.pressure.head?
          temperature := r.temperature.head? }
      performance := some
        (match r.engine with
         | some (t, p, i) =>
           { torque := t, power_hp := p / (7457 / 10), imep := i }
         | none => { torque := 0, power_hp := 0, imep := 0 }) }

/-- The four per-step phase calls of the main loop of
`run_simulation_wrapper` and its end predicate.  Modelled from the spec:
the `TOpenWAM` methods are outside the visible sources, so they are abstract
state transformers over a simulation-state type `S`; the loop structure
itself is taken from the source. -/
structure SimModel (S : Type) where
  DetermineTimeStepIndependent : S → S
  NewEngineCycle : S → S
  CalculateFlowIndependent : S → S
  ManageOutput : S → S
  CalculationEnd : S → Bool

/-- One iteration of the do-while body: the four phases in source order. -/
def SimModel.body {S : Type} (M : SimModel S) (s : S) : S :=
  M.ManageOutput (M.CalculateFlowIndependent
    (M.NewEngineCycle (M.DetermineTimeStepIndependent s)))

/-- The do-while loop `do { ... } while (!sim->CalculationEnd());`, with
explicit fuel so the embedding stays total: returns `some (n, s)` when the
loop exits after `n` body executions in final state `s`, and `none` when the
fuel runs out with the loop still going. -/
def SimModel.loop {S : Type} (M : SimModel S) : Nat → S → Option (Nat × S)
  | 0, _ => none
  | fuel + 1, s =>
    if M.CalculationEnd (M.body s) then some (1, M.body s)
    else
      match M.loop fuel (M.body s) with
      | some (n, s2) => some (n + 1, s2)
      | none => none

/-- A degraded Table controller state: no sensors bound, no table data. -/
def degradedTable : TTable :=
  { fID := 1
    fOutput := 7
    table := []
    refSensorIds := []
    refControllerIds := []
    boundSensorIds := []
    boundControllerIds := [] }

/-- A Table controller state whose captured sensor reference (id 3) has no
counterpart in the sensor set it will be bound against. -/
def danglingRefTable : TTable :=
  { fID := 1
    fOutput := 0
    table := []
    refSensorIds := [3]
    refControllerIds := []
    boundSensorIds := []
    boundControllerIds := [] }

/-- A concrete loop-model instance: the composed body increments a counter
and the end predicate fires at 3. -/
def natSim : SimModel Nat :=
  { DetermineTimeStepIndependent := fun s => s + 1
    NewEngineCycle := fun s => s
    CalculateFlowIndependent := fun s => s
    ManageOutput := fun s => s
    CalculationEnd := fun s => decide (3 ≤ s) }

/-- Claim C1, code evaluation at the failing input: with the breakpoint table
{(0,10),(100,20)}, a bound sensor, and a fresh cached output of 0, the source
`Output` returns the cached 0 at a sensor reading of 50 and also at 150 — it
never consults the table — whereas the interpolation the spec states as the
intended behavior yields 15 at 50 and the clamped edge value 20 at 150. -/
theorem C1_output_no_interp_code_bug :
    (TTable.Output
      { fID := 1
        fOutput := 0
        table := [(0, 10), (100, 20)]
        refSensorIds := [0]
        refControllerIds := []
        boundSensorIds := [0]
        boundControllerIds := [] } 50).1 = 0
    ∧ specTableLookup [(0, 10), (100, 20)] 50 = 15
    ∧ specTableLookup [(0, 10), (100, 20)] 150 = 20
    ∧ (0 : ℚ) ≠ 15 := by
  refine ⟨rfl, ?_, ?_, by norm_num⟩
  · simp only [specTableLookup]
    norm_num
  · simp only [specTableLookup]
    norm_num

/-- Claim C2: a Table controller with no bound sensors and no table data
returns the cached `fOutput` on every `Output` call, for any list of time
arguments in any order, and its state is unchanged throughout. -/
theorem C2_degraded_output_idempotent (st : TTable) (ts : List ℚ)
    (_hs : st.boundSensorIds = []) (_ht : st.table = []) :
    runOutputs st ts = (ts.map fun _ => st.fOutput, st) := by
  induction ts with
  | nil => rfl
  | cons t ts ih => simp [runOutputs, TTable.Output, ih]

/-- Witness for C2 at a concrete degraded state and time list. -/
theorem C2_degraded_output_idempotent_witness :
    degradedTable.boundSensorIds = [] ∧ degradedTable.table = []
    ∧ runOutputs degradedTable [0, 5, 5, 2] = ([7, 7, 7, 7], degradedTable) :=
  ⟨rfl, rfl, C2_degraded_output_idempotent degradedTable [0, 5, 5, 2] rfl rfl⟩

/-- Claim C3, code evaluation: `LeeController` leaves the cursor exactly
where it started and populates no state, for every file and position; in
particular, on a file whose table block at position 0 is 13 characters long,
the cursor stays at 0 instead of ending past the block as the claim
requires. -/
theorem C3_cursor_unchanged_code_bug :
    (∀ (st : TTable) (f : String) (p : Nat),
      TTable.LeeController st f p = (st, p))
    ∧ TTable.LeeController (TTable.construct 0) "2 0 10 100 20" 0
        = (TTable.construct 0, 0)
    ∧ ("2 0 10 100 20" : String).length = 13 :=
  ⟨fun _ _ _ => rfl, rfl, rfl⟩

/-- Claim C4, counterexample: a Table controller referencing sensor id 3,
bound against an empty sensor set and empty controller set — the claim
requires `AsignaObjetos` to fail with `UnresolvedReferenceError`, but the
source's empty body succeeds, returning the state unchanged. -/
theorem C4_binding_counterexample :
    danglingRefTable.refSensorIds = [3]
    ∧ TTable.AsignaObjetos danglingRefTable [] []
        = Except.ok danglingRefTable :=
  ⟨rfl, rfl⟩

/-- Claim C4 as amended: `AsignaObjetos` is a no-op — for every controller
state and any sensor and controller sets it succeeds with the state (hence
the bindings) unchanged; in particular it never raises
`UnresolvedReferenceError` and never leaves a partially-bound state. -/
theorem C4_binding_noop (st : TTable) (ss : List TSensor) (cs : List TTable) :
    TTable.AsignaObjetos st ss cs = Except.ok st :=
  rfl

/-- Claim C5: `Output` is total — for every controller state and every time
argument it returns a value and never an error, namely the cached
`fOutput`, leaving the state unchanged. -/
theorem C5_output_total (st : TTable) (t : ℚ) :
    TTable.Output st t = (st.fOutput, st) :=
  rfl

/-- Claim C6: every result-lifecycle hook of the Table variant is a no-op —
it leaves the controller state unchanged and writes nothing to the given
output streams. -/
theorem C6_lifecycle_hooks_noop (st : TTable) (q : ℚ) (med ins : String) :
    TTable.IniciaMedias st = st
    ∧ TTable.AcumulaResultadosMediosController st q = st
    ∧ TTable.ResultadosMediosController st = st
    ∧ TTable.ResultadosInstantController st = st
    ∧ TTable.CabeceraResultadosMedControlador st med = (st, med)
    ∧ TTable.CabeceraResultadosInsControlador st ins = (st, ins)
    ∧ TTable.ImprimeResultadosMedControlador st med = (st, med)
    ∧ TTable.ImprimeResultadosInsControlador st ins = (st, ins) :=
  ⟨rfl, rfl, rfl, rfl, rfl, rfl, rfl, rfl⟩

/-- Claim C7: `run_simulation_wrapper` always yields a response whose status
is "success" or "error" with a nonempty message; every escaped exception
(including a JSON parse failure, which throws a `std::exception` subclass)
yields status "error" with a message, a completed run without results
yields status "error", and a completed run with results yields status
"success" with the output and performance objects present. -/
theorem C7_wrapper_response_shape :
    (∀ ev, (run_simulation_wrapper ev).status = "success"
        ∨ (run_simulation_wrapper ev).status = "error")
    ∧ (∀ ev, (run_simulation_wrapper ev).message ≠ "")
    ∧ (∀ w, (run_simulation_wrapper (HostOutcome.throwsStd w)).status
          = "error"
        ∧ (run_simulation_wrapper (HostOutcome.throwsStd w)).message
            = "C++ exception: " ++ w)
    ∧ (run_simulation_wrapper HostOutcome.throwsUnknown).status = "error"
    ∧ (run_simulation_wrapper (HostOutcome.completes none)).status = "error"
    ∧ ∀ r, (run_simulation_wrapper (HostOutcome.completes (some r))).status
          = "success"
        ∧ (run_simulation_wrapper
            (HostOutcome.completes (some r))).output.isSome = true
        ∧ (run_simulation_wrapper
            (HostOutcome.completes (some r))).performance.isSome = true := by
  refine ⟨?_, ?_, fun w => ⟨rfl, rfl⟩, rfl, rfl, fun r => ⟨rfl, rfl, rfl⟩⟩
  · intro ev
    rcases ev with w | _ | r
    · right; rfl
    · right; rfl
    · rcases r with _ | r
      · right; rfl
      · left; rfl
  · intro ev h
    rcases ev with w | _ | r
    · simp only [run_simulation_wrapper] at h
      have hd := congrArg String.data h
      rw [String.data_append] at hd
      have h1 : ("C++ exception: " : String).data = [] :=
        (List.append_eq_nil.mp hd).1
      exact absurd h1 (by decide)
    · simp only [run_simulation_wrapper] at h
      exact absurd h (by decide)
    · rcases r with _ | r
      · simp only [run_simulation_wrapper] at h
        exact absurd h (by decide)
      · simp only [run_simulation_wrapper] at h
        exact absurd h (by decide)

/-- Claim C8: whenever the do-while loop exits (returns `some (n, s')`), the
body — the four phase calls in source order — has executed `n ≥ 1` times (at
least once), the final state is the `n`-th iterate of the body, the end
predicate holds there, and it held after no earlier body execution: the loop
terminates exactly when `CalculationEnd` first holds after a body run. -/
theorem C8_loop_do_while {S : Type} (M : SimModel S) (fuel : Nat) (s : S)
    (n : Nat) (s' : S) (h : M.loop fuel s = some (n, s')) :
    1 ≤ n ∧ s' = M.body^[n] s ∧ M.CalculationEnd s' = true
    ∧ ∀ k, 1 ≤ k → k < n → M.CalculationEnd (M.body^[k] s) = false := by
  induction fuel generalizing s n s' with
  | zero => simp [SimModel.loop] at h
  | succ fuel ih =>
    simp only [SimModel.loop] at h
    split at h
    case isTrue hend =>
      obtain ⟨rfl, rfl⟩ := Prod.ext_iff.mp (Option.some.inj h)
      refine ⟨le_refl 1, ?_, hend, ?_⟩
      · rw [Function.iterate_one]
      · exact fun k hk1 hk2 => absurd hk2 (Nat.not_lt.mpr hk1)
    case isFalse hend =>
      rw [Bool.not_eq_true] at hend
      cases hl : M.loop fuel (M.body s) with
      | none => rw [hl] at h; exact absurd h (by simp)
      | some p =>
        obtain ⟨m, s2⟩ := p
        rw [hl] at h
        obtain ⟨rfl, rfl⟩ := Prod.ext_iff.mp (Option.some.inj h)
        obtain ⟨hm1, hiter, hend2, hfalse⟩ := ih (M.body s) m s2 hl
        refine ⟨Nat.le_add_left 1 m, ?_, hend2, ?_⟩
        · rw [Function.iterate_succ_apply]
          exact hiter
        · intro k hk1 hk2
          obtain ⟨j, rfl⟩ : ∃ j, k = j + 1 := ⟨k - 1, by omega⟩
          rw [Function.iterate_succ_apply]
          cases j with
          | zero => simpa using hend
          | succ j =>
            exact hfalse (j + 1) (Nat.le_add_left 1 j) (by omega)

/-- Witness for C8: the concrete loop model exits after three body runs in
state 3, where the end predicate holds. -/
theorem C8_loop_do_while_witness :
    natSim.loop 10 0 = some (3, 3) ∧ natSim.CalculationEnd 3 = true :=
  ⟨by decide, (C8_loop_do_while natSim 10 0 3 3 (by decide)).2.2.1⟩

/-- Claim C9: construction with 0-based index `i` sets the id to `i + 1`,
and every operation of the Table controller — `Output`, the configuration
readers, binding, and all result-lifecycle hooks — leaves the id
unchanged. -/
theorem C9_id_one_based_immutable (i : Int) (st : TTable) (t q : ℚ)
    (f med ins : String) (p : Nat) (ss : List TSensor) (cs : List TTable) :
    (TTable.construct i).fID = i + 1
    ∧ ((TTable.Output st t).2).fID = st.fID
    ∧ ((TTable.LeeController st f p).1).fID = st.fID
    ∧ (TTable.AsignaObjetos st ss cs).map TTable.fID = Except.ok st.fID
    ∧ ((TTable.LeeResultadosMedControlador st f p).1).fID = st.fID
    ∧ ((TTable.LeeResultadosInsControlador st f p).1).fID = st.fID
    ∧ (TTable.IniciaMedias st).fID = st.fID
    ∧ (TTable.AcumulaResultadosMediosController st q).fID = st.fID
    ∧ (TTable.ResultadosMediosController st).fID = st.fID
    ∧ (TTable.ResultadosInstantController st).fID = st.fID
    ∧ ((TTable.CabeceraResultadosMedControlador st med).1).fID = st.fID
    ∧ ((TTable.CabeceraResultadosInsControlador st ins).1).fID = st.fID
    ∧ ((TTable.ImprimeResultadosMedControlador st med).1).fID = st.fID
    ∧ ((TTable.ImprimeResultadosInsControlador st ins).1).fID = st.fID :=
  ⟨rfl, rfl, rfl, rfl, rfl, rfl, rfl, rfl, rfl, rfl, rfl, rfl, rfl, rfl⟩

/-- Claim C10: a freshly constructed Table controller has `fOutput = 0`, so
`Output` at any time — before any configuration, binding, or prior call —
returns exactly 0 with the state unchanged. -/
theorem C10_fresh_output_zero (i : Int) (t : ℚ) :
    (TTable.construct i).fOutput = 0
    ∧ TTable.Output (TTable.construct i) t = (0, TTable.construct i) :=
  ⟨rfl, rfl⟩

end OpenWAM
